import Mathlib

/-!
Verification development for the Google-Drive-to-Telegram relay bot.

The Python sources are embedded shallowly:

* `gdrive_handler.py` — the remote tree enumerator
  (`list_files_in_folder_recursive`, `get_drive_items_from_link`);
* `file_manager.py` — the transfer engine
  (`download_gdrive_file`, `upload_to_telegram`);
* `auth_manager.py` — the credential store
  (`save_user_credentials`, `load_user_credentials`, `delete_user_credentials`);
* `main.py` — the session orchestrator (`handle_message`).

Network and filesystem effects are made explicit: the Drive API is a tree of
nodes whose listing order models the `orderBy='folder,name'` request
parameter, the local scratch directory is an association list from path to
byte size, and the token storage file is a value that is either absent,
corrupt (not valid JSON) or a parsed key/value map.
-/

namespace GdTgBot

/-! ## Remote tree model (`gdrive_handler.py`) -/

/-- The Drive folder mime type constant used throughout the source. -/
def folderMime : String := "application/vnd.google-apps.folder"

/-- One node of the remote Drive tree.  A `file` carries its mime type and an
optional byte size (`size` is absent for Google-native documents, source line
76 reads `item.get('size', 0)`); a `folder` carries its children. -/
inductive DriveNode where
  | file (id name mimeType : String) (size : Option Nat)
  | folder (id name : String) (children : List DriveNode)
deriving Repr

/-- Display name of a node. -/
def DriveNode.nodeName : DriveNode → String
  | .file _ n _ _ => n
  | .folder _ n _ => n

/-- Identifier of a node. -/
def DriveNode.nodeId : DriveNode → String
  | .file i _ _ _ => i
  | .folder i _ _ => i

/-- Mime type of a node; folders always report the Drive folder mime type. -/
def DriveNode.nodeMime : DriveNode → String
  | .file _ _ m _ => m
  | .folder _ _ _ => folderMime

/-- Declared byte size; folders have none (the source then stores 0). -/
def DriveNode.nodeSize : DriveNode → Option Nat
  | .file _ _ _ s => s
  | .folder _ _ _ => none

/-- The `is_folder` test of source line 78:
`item['mimeType'] == 'application/vnd.google-apps.folder'`. -/
def DriveNode.isFolderB (n : DriveNode) : Bool :=
  n.nodeMime == folderMime

/-- Children visible to a `files().list` call on the node's id (a file id has
no children). -/
def DriveNode.children : DriveNode → List DriveNode
  | .file _ _ _ _ => []
  | .folder _ _ cs => cs

/-- Lexicographic comparison of character sequences by code point, the
name order the Drive API applies for `orderBy='name'`. -/
def strLEb : List Char → List Char → Bool
  | [], _ => true
  | _ :: _, [] => false
  | a :: as, b :: bs =>
      if a.toNat < b.toNat then true
      else if b.toNat < a.toNat then false
      else strLEb as bs

/-- Name order on strings. -/
def nameLE (a b : String) : Bool := strLEb a.data b.data

/-- The sort key of the Drive API request `orderBy='folder,name'`: folders
before files, ties broken by display name. -/
def childLE (a b : DriveNode) : Bool :=
  if a.isFolderB != b.isFolderB then a.isFolderB
  else nameLE a.nodeName b.nodeName

/-- Insertion step of the listing order. -/
def insertChild (a : DriveNode) : List DriveNode → List DriveNode
  | [] => [a]
  | b :: t => if childLE a b then a :: b :: t else b :: insertChild a t

/-- The child sequence a `files().list(..., orderBy='folder,name')` call
returns: the children sorted folders-first then by name. -/
def sortChildren (l : List DriveNode) : List DriveNode :=
  l.foldr insertChild []

/-- The per-item dictionary built at source lines 72–79 of
`gdrive_handler.py` (and line 123–130 for a single file). -/
structure Item where
  id : String
  name : String
  mimeType : String
  size : Nat
  path : String
  is_folder : Bool
deriving Repr, DecidableEq

/-- `item_details` for a node at a given slash-joined path
(source lines 72–79). -/
def itemOf (n : DriveNode) (item_path : String) : Item :=
  { id := n.nodeId, name := n.nodeName, mimeType := n.nodeMime,
    size := n.nodeSize.getD 0, path := item_path, is_folder := n.isFolderB }

theorem sizeOf_insertChild (a : DriveNode) (l : List DriveNode) :
    sizeOf (insertChild a l) = 1 + sizeOf a + sizeOf l := by
  induction l with
  | nil => simp [insertChild]
  | cons b t ih =>
      simp only [insertChild]
      split <;> simp_arith [ih]

/-- `item_path` computation of source line 71:
`f"{current_path}/{item['name']}" if current_path else item['name']`. -/
def joinPath (current_path name : String) : String :=
  if current_path = "" then name else current_path ++ "/" ++ name

theorem sizeOf_sortChildren (l : List DriveNode) :
    sizeOf (sortChildren l) = sizeOf l := by
  induction l with
  | nil => rfl
  | cons a t ih =>
      show sizeOf (insertChild a (sortChildren t)) = _
      rw [sizeOf_insertChild, ih]
      simp_arith

/-- The body of the `for item in response.get('files', [])` loop of
`list_files_in_folder_recursive` (source lines 70–90), running over an
already listing-ordered child sequence: each item is appended, and a folder
item is immediately followed by the recursive listing of its subtree
(source line 85 sorts that subtree's own listing the same way).  The
source's pagination loop concatenates the ordered pages, which is the same
traversal. -/
def walk : List DriveNode → String → List Item
  | [], _ => []
  | n :: rest, current_path =>
      if n.isFolderB then
        itemOf n (joinPath current_path n.nodeName) ::
          (walk (sortChildren n.children) (joinPath current_path n.nodeName) ++
            walk rest current_path)
      else
        itemOf n (joinPath current_path n.nodeName) :: walk rest current_path
termination_by l _ => sizeOf l
decreasing_by
  all_goals first
    | (rw [sizeOf_sortChildren]
       cases n <;> simp_arith [DriveNode.children])
    | simp_arith

/-- `list_files_in_folder_recursive(folder_id, credentials, current_path)`
(source lines 55–97): walk the listing-ordered children of the folder. -/
def list_files_in_folder_recursive (children : List DriveNode)
    (current_path : String) : List Item :=
  walk (sortChildren children) current_path

/-- `get_drive_items_from_link` (source lines 100–138) on a resolved root
node: a folder is walked recursively starting from the folder's own name as
the path prefix (line 113) and folder entries are filtered out (line 115);
a single file yields one descriptor whose path is its own name
(lines 123–130). -/
def get_drive_items_from_link : DriveNode → List Item
  | .folder _ n cs =>
      (list_files_in_folder_recursive cs n).filter (fun it => !it.is_folder)
  | .file i n m s =>
      [{ id := i, name := n, mimeType := m, size := s.getD 0,
         path := n, is_folder := false }]

/-! ## Spec-side enumeration order (for the refinement claim C9) -/

/-- Spec-side enumeration, following the spec's words: at every tree level
the children are ordered folders-before-files then by name, file leaves are
emitted with the slash-joined ancestor path, and each subfolder's results
are concatenated in place, recursively; folder nodes themselves are never
emitted. -/
def specWalk : List DriveNode → String → List Item
  | [], _ => []
  | n :: rest, current_path =>
      if n.isFolderB then
        specWalk (sortChildren n.children) (joinPath current_path n.nodeName) ++
          specWalk rest current_path
      else
        itemOf n (joinPath current_path n.nodeName) :: specWalk rest current_path
termination_by l _ => sizeOf l
decreasing_by
  all_goals first
    | (rw [sizeOf_sortChildren]
       cases n <;> simp_arith [DriveNode.children])
    | simp_arith

/-- Spec-side enumeration of a folder: its listing-ordered children walked
from the folder's name, yielding file leaves only. -/
def specEnumerate (children : List DriveNode) (rootName : String) : List Item :=
  specWalk (sortChildren children) rootName

/-- Filtering the folder entries out of the source walk yields exactly the
spec-side files-only walk. -/
theorem filter_walk (l : List DriveNode) (p : String) :
    (walk l p).filter (fun it => !it.is_folder) = specWalk l p := by
  induction l, p using walk.induct with
  | case1 p => simp [walk, specWalk]
  | case2 n rest current_path h ih1 ih2 =>
      rw [walk, specWalk]
      simp_all [itemOf]
  | case3 n rest current_path h ih =>
      rw [walk, specWalk]
      simp_all [itemOf]

/-! ## The C1 scenario tree -/

/-- The subfolder `sub` of the spec's enumeration scenario, holding
`c.txt` (5 B). -/
def scenarioSub : DriveNode :=
  .folder "id-sub" "sub" [.file "id-c" "c.txt" "text/plain" (some 5)]

/-- Children of the scenario's root folder: `b.txt` (10 B), `a.txt` (20 B)
and the subfolder `sub`. -/
def scenarioChildren : List DriveNode :=
  [.file "id-b" "b.txt" "text/plain" (some 10),
   .file "id-a" "a.txt" "text/plain" (some 20),
   scenarioSub]

/-- The scenario's root folder, named `root`. -/
def scenarioRoot : DriveNode := .folder "id-root" "root" scenarioChildren

/-- C1 counterexample: the enumerator does not return paths
`["a.txt", "b.txt", "sub/c.txt"]` for the scenario folder — every path is
prefixed with the root folder's name (source line 113 starts the walk at
`initial_metadata['name']`) and the subfolder's file comes first (the
listing orders folders before files and subfolder results are spliced in
place). -/
theorem scenario_enumeration_counterexample :
    (get_drive_items_from_link scenarioRoot).map Item.path ≠
      ["a.txt", "b.txt", "sub/c.txt"] := by
  simp [scenarioRoot, scenarioChildren, scenarioSub, get_drive_items_from_link,
    list_files_in_folder_recursive, walk, sortChildren, insertChild, childLE,
    nameLE, strLEb, itemOf, joinPath, DriveNode.isFolderB, DriveNode.nodeMime,
    DriveNode.nodeName, DriveNode.children, DriveNode.nodeId,
    DriveNode.nodeSize, folderMime]

/-- C1 (amended): for the scenario folder (root name `root`), the
enumerator returns exactly the descriptors for `sub/c.txt`, `a.txt` and
`b.txt` in that order, each path prefixed with the root folder's name. -/
theorem scenario_enumeration_amended :
    get_drive_items_from_link scenarioRoot =
      [{ id := "id-c", name := "c.txt", mimeType := "text/plain", size := 5,
         path := "root/sub/c.txt", is_folder := false },
       { id := "id-a", name := "a.txt", mimeType := "text/plain", size := 20,
         path := "root/a.txt", is_folder := false },
       { id := "id-b", name := "b.txt", mimeType := "text/plain", size := 10,
         path := "root/b.txt", is_folder := false }] := by
  simp [scenarioRoot, scenarioChildren, scenarioSub, get_drive_items_from_link,
    list_files_in_folder_recursive, walk, sortChildren, insertChild, childLE,
    nameLE, strLEb, itemOf, joinPath, DriveNode.isFolderB, DriveNode.nodeMime,
    DriveNode.nodeName, DriveNode.children, DriveNode.nodeId,
    DriveNode.nodeSize, folderMime]

/-- C9: for every folder link, every item the enumerator forwards has
`is_folder = false`, and the output equals the spec-side ordering
(folders-before-files then by name at every level, subfolder results
concatenated in place, recursively, file leaves only). -/
theorem enumerator_files_only_ordered (i n : String) (cs : List DriveNode) :
    (∀ it ∈ get_drive_items_from_link (.folder i n cs), it.is_folder = false) ∧
    get_drive_items_from_link (.folder i n cs) = specEnumerate cs n := by
  constructor
  · intro it hit
    simp only [get_drive_items_from_link, list_files_in_folder_recursive,
      List.mem_filter] at hit
    simpa using hit.2
  · simp only [get_drive_items_from_link, list_files_in_folder_recursive,
      specEnumerate, filter_walk]

/-- C9 witness: the property instantiated at the concrete scenario tree. -/
theorem enumerator_files_only_ordered_witness :
    (∀ it ∈ get_drive_items_from_link (.folder "id-root" "root" scenarioChildren),
        it.is_folder = false) ∧
    get_drive_items_from_link (.folder "id-root" "root" scenarioChildren) =
      specEnumerate scenarioChildren "root" :=
  enumerator_files_only_ordered "id-root" "root" scenarioChildren

/-! ## Local scratch filesystem model (`file_manager.py`) -/

/-- The scratch directory, an association from file path to byte size:
`os.path.exists` is key membership, `os.path.getsize` the stored size. -/
abbrev FS := List (String × Nat)

/-- Remove every entry under a key from an association list (Python dict
keys are unique, so this is the dict `del` / overwrite semantics). -/
def eraseKey {β : Type} : List (String × β) → String → List (String × β)
  | [], _ => []
  | e :: t, p => if e.1 == p then eraseKey t p else e :: eraseKey t p

theorem lookup_eraseKey {β : Type} (m : List (String × β)) (p : String) :
    (eraseKey m p).lookup p = none := by
  induction m with
  | nil => rfl
  | cons e t ih =>
      obtain ⟨k, v⟩ := e
      by_cases h : (k == p) = true
      · simpa [eraseKey, h] using ih
      · have h2 : (p == k) = false := by
          have hk : k ≠ p := by simpa using h
          exact beq_eq_false_iff_ne.mpr (Ne.symm hk)
        simpa [eraseKey, h, List.lookup, h2] using ih

/-- Remove a path (`os.remove`). -/
def fsRemove (fs : FS) (p : String) : FS := eraseKey fs p

/-- (Over)write a file of the given size at a path. -/
def fsWrite (fs : FS) (p : String) (sz : Nat) : FS :=
  (p, sz) :: fsRemove fs p

theorem lookup_fsRemove (fs : FS) (p : String) :
    (fsRemove fs p).lookup p = none :=
  lookup_eraseKey fs p

/-- Configured download chunk size (source line 47: 5 MiB). -/
def CHUNK_SIZE : Nat := 1024 * 1024 * 5

/-- Telegram's maximum payload size with the source's default configuration
(`config.py` line 15, `MAX_FILE_SIZE_TG_MB` defaulting to 2000). -/
def MAX_FILE_SIZE_TG_BYTES : Nat := 2000 * 1024 * 1024

/-- Large-file threshold with the source's default configuration
(`config.py` lines 13–14, `LARGE_FILE_THRESHOLD_MB` defaulting to 50). -/
def LARGE_FILE_THRESHOLD_BYTES : Nat := 50 * 1024 * 1024

/-- Character sanitation of source line 30: keep alphanumerics, `.`, `_`,
`-`; replace everything else with `_`. -/
def sanitizeChar (c : Char) : Char :=
  if c.isAlphanum || c = '.' || c = '_' || c = '-' then c else '_'

/-- `safe_file_name` of source lines 30–32, falling back to the file id
when sanitation empties the name. -/
def safeFileName (file_name file_id : String) : String :=
  let s := String.mk (file_name.data.map sanitizeChar)
  if s = "" then file_id else s

/-- The scratch directory configured in `config.py` line 21. -/
def DOWNLOAD_DIR : String := "downloads"

/-- `file_path` of source line 33: `os.path.join(DOWNLOAD_DIR, safe_file_name)`. -/
def scratchPath (file_id file_name : String) : String :=
  DOWNLOAD_DIR ++ "/" ++ safeFileName file_name file_id

/-- Number of `next_chunk` network reads a full download performs: one call
per chunk, and at least one call even for an empty stream. -/
def chunkCalls (size : Nat) : Nat :=
  if size = 0 then 1 else (size + CHUNK_SIZE - 1) / CHUNK_SIZE

/-- Behaviour of the remote transport during one streamed download: either
every chunk arrives, or an API/local fault occurs after `k` chunk reads. -/
inductive StreamEnv where
  | ok
  | httpErrorAfter (k : Nat)
  | localErrorAfter (k : Nat)

/-- Result of `download_gdrive_file`: the returned path or raised error
class (source lines 70 and 74), the number of network chunk reads, and the
resulting scratch directory. -/
inductive DlOutcome where
  | ok (localPath : String)
  | connectionError
  | fsFault
deriving Repr, DecidableEq

structure DlResult where
  outcome : DlOutcome
  chunkReads : Nat
  fs : FS
deriving Repr, DecidableEq

/-- `download_gdrive_file` (source lines 25–74).  The skip check of line 41
reuses an existing scratch file only when its size equals the expected size
AND that size is positive.  On a mid-stream fault the partial file is
removed (lines 69 and 73) and the error is re-classified (`ConnectionError`
for API faults, `IOError` for local ones).  A successful stream writes the
declared number of bytes. -/
def download_gdrive_file (fs : FS) (file_id file_name : String)
    (file_size : Nat) (env : StreamEnv) : DlResult :=
  if fs.lookup (scratchPath file_id file_name) = some file_size ∧ file_size > 0 then
    { outcome := .ok (scratchPath file_id file_name), chunkReads := 0, fs := fs }
  else
    match env with
    | .ok =>
        { outcome := .ok (scratchPath file_id file_name),
          chunkReads := chunkCalls file_size,
          fs := fsWrite fs (scratchPath file_id file_name) file_size }
    | .httpErrorAfter k =>
        { outcome := .connectionError, chunkReads := k,
          fs := fsRemove fs (scratchPath file_id file_name) }
    | .localErrorAfter k =>
        { outcome := .fsFault, chunkReads := k,
          fs := fsRemove fs (scratchPath file_id file_name) }

/-- Which notifications `upload_to_telegram` sends besides progress. -/
inductive UlMsg where
  | tooLargeSkipped
  | uploadFailed
deriving Repr, DecidableEq

/-- Result of `upload_to_telegram`: the returned boolean (or an uncaught
exception when the path is missing), the number of `send_document` calls,
the notifications sent, and the resulting scratch directory. -/
structure UlResult where
  ret : Except Unit Bool
  sendDocumentCalls : Nat
  messages : List UlMsg
  fs : FS
deriving Repr

/-- `upload_to_telegram` (source lines 77–116).  The size gate of lines
81–84 returns False BEFORE the `try`/`finally` of lines 86–116, so no
cleanup runs on that path; `sendOk` models whether `bot.send_document`
completes or raises (any raise is caught at line 106, reported, and False
returned); the `finally` block removes the scratch file on every path that
entered the `try`. -/
def upload_to_telegram (fs : FS) (file_path : String) (maxTgBytes : Nat)
    (sendOk : Bool) : UlResult :=
  match fs.lookup file_path with
  | none => { ret := .error (), sendDocumentCalls := 0, messages := [], fs := fs }
  | some file_size =>
    if file_size > maxTgBytes then
      { ret := .ok false, sendDocumentCalls := 0,
        messages := [.tooLargeSkipped], fs := fs }
    else if sendOk then
      { ret := .ok true, sendDocumentCalls := 1, messages := [],
        fs := fsRemove fs file_path }
    else
      { ret := .ok false, sendDocumentCalls := 1, messages := [.uploadFailed],
        fs := fsRemove fs file_path }

/-- C2 counterexample: a call of `upload_to_telegram` on a scratch file
whose size exceeds the destination maximum takes the too-large early return
of source lines 81–84, which runs BEFORE the `try`/`finally`, so the
scratch file still exists when the call concludes. -/
theorem upload_cleanup_counterexample :
    ((upload_to_telegram [("downloads/big.bin", MAX_FILE_SIZE_TG_BYTES + 1)]
        "downloads/big.bin" MAX_FILE_SIZE_TG_BYTES true).fs).lookup
      "downloads/big.bin" = some (MAX_FILE_SIZE_TG_BYTES + 1) := by
  decide

/-- C2 (amended): on every exit path of `upload_to_telegram` that enters
the `try`/`finally` — upload success, destination rejection, raised send
exception — the local scratch file no longer exists when the call
concludes; the too-large skip path returns before the `try` and leaves the
file in place. -/
theorem upload_cleanup_amended (fs : FS) (p : String) (M : Nat)
    (sendOk : Bool) (sz : Nat) (h1 : fs.lookup p = some sz) (h2 : sz ≤ M) :
    ((upload_to_telegram fs p M sendOk).fs).lookup p = none := by
  simp only [upload_to_telegram, h1]
  rw [if_neg (by omega)]
  cases sendOk <;> simp [lookup_fsRemove]

/-- C2 witness: cleanup observed on a concrete successful upload. -/
theorem upload_cleanup_amended_witness :
    ((upload_to_telegram [("downloads/ok.bin", 7)] "downloads/ok.bin"
        MAX_FILE_SIZE_TG_BYTES true).fs).lookup "downloads/ok.bin" = none :=
  upload_cleanup_amended [("downloads/ok.bin", 7)] "downloads/ok.bin"
    MAX_FILE_SIZE_TG_BYTES true 7 (by decide)
    (by norm_num [MAX_FILE_SIZE_TG_BYTES])

/-- C8 counterexample: for an item of expected remote size 0 whose scratch
file already exists with exactly that size, a further `download_gdrive_file`
call is NOT skipped — the reuse check of source line 41 additionally
requires `file_size > 0` — so a network chunk read is performed. -/
theorem download_reuse_counterexample :
    (download_gdrive_file [("downloads/note.txt", 0)] "id-n" "note.txt" 0
        .ok).chunkReads ≠ 0 := by
  decide

/-- C8 (amended): for every item of POSITIVE expected remote size whose
scratch file exists with exactly that size, a download call performs zero
network chunk reads, returns the existing file's path, and leaves the
scratch directory untouched — whatever the remote transport would do. -/
theorem download_reuse_amended (fs : FS) (fid fname : String) (size : Nat)
    (env : StreamEnv)
    (h1 : fs.lookup (scratchPath fid fname) = some size) (h2 : 0 < size) :
    download_gdrive_file fs fid fname size env =
      { outcome := .ok (scratchPath fid fname), chunkReads := 0, fs := fs } := by
  rw [download_gdrive_file.eq_def, if_pos ⟨h1, h2⟩]

/-- C8 witness: a matching 20-byte scratch file is reused with zero chunk
reads. -/
theorem download_reuse_amended_witness :
    download_gdrive_file [("downloads/a.txt", 20)] "id-a" "a.txt" 20 .ok =
      { outcome := .ok (scratchPath "id-a" "a.txt"), chunkReads := 0,
        fs := [("downloads/a.txt", 20)] } :=
  download_reuse_amended [("downloads/a.txt", 20)] "id-a" "a.txt" 20 .ok
    (by decide) (by decide)

/-! ## Credential store model (`auth_manager.py`) -/

/-- The per-user record persisted at source lines 71–78. -/
structure StoredCreds where
  token : String
  refresh_token : Option String
  token_uri : String
  client_id : String
  client_secret : String
  scopes : List String
deriving Repr, DecidableEq

/-- Parsed state of the token storage file: either not valid JSON, or a
keyed mapping from user identifier to record. -/
inductive FileContent where
  | corrupt
  | valid (m : List (String × StoredCreds))
deriving Repr, DecidableEq

/-- The durable token storage; `none` means the file does not exist. -/
abbrev Storage := Option FileContent

/-- Python dict key update, source line 71 (`all_tokens[str(user_id)] = ...`). -/
def mapSet (m : List (String × StoredCreds)) (k : String) (v : StoredCreds) :
    List (String × StoredCreds) :=
  (k, v) :: eraseKey m k

/-- `save_user_credentials` (source lines 61–81): a corrupted or missing
file is treated as an empty store (the `json.JSONDecodeError` handler at
lines 67–69 starts fresh), the user's entry is upserted and the whole map
rewritten.  This operation cannot raise. -/
def save_user_credentials (st : Storage) (user_id : String)
    (c : StoredCreds) : Storage :=
  match st with
  | none => some (.valid (mapSet [] user_id c))
  | some .corrupt => some (.valid (mapSet [] user_id c))
  | some (.valid m) => some (.valid (mapSet m user_id c))

/-- `delete_user_credentials` (source lines 111–123): the read at lines
113–115 has NO `JSONDecodeError` handler, so a corrupted file makes the
operation raise (modelled as `Except.error`); otherwise the entry is
removed and whether it existed is returned. -/
def delete_user_credentials (st : Storage) (user_id : String) :
    Except Unit (Bool × Storage) :=
  match st with
  | none => .ok (false, st)
  | some .corrupt => .error ()
  | some (.valid m) =>
      if (m.lookup user_id).isSome then
        .ok (true, some (.valid (eraseKey m user_id)))
      else .ok (false, st)

/-- Verdicts of the external google-auth library during a `load`: whether
the credentials constructed from the stored record are expired, and the
outcome of `credentials.refresh(Request())` (`none` models a raised
refresh error). -/
structure AuthEnv where
  expired : StoredCreds → Bool
  refreshOutcome : StoredCreds → Option StoredCreds

/-- `load_user_credentials` (source lines 83–109): a missing or corrupted
file yields `None` (the decode error is caught at lines 89–91); a stored
record that the library reports expired and that has a refresh token is
refreshed — on success the refreshed record is persisted via
`save_user_credentials` and returned, on failure the stored record is
deleted via `delete_user_credentials` and `None` returned (any error that
delete itself raises propagates). -/
def load_user_credentials (env : AuthEnv) (st : Storage) (user_id : String) :
    Except Unit (Option StoredCreds × Storage) :=
  match st with
  | none => .ok (none, st)
  | some .corrupt => .ok (none, st)
  | some (.valid m) =>
    match m.lookup user_id with
    | none => .ok (none, st)
    | some cred =>
      if env.expired cred && cred.refresh_token.isSome then
        match env.refreshOutcome cred with
        | some cred' =>
            .ok (some cred', save_user_credentials st user_id cred')
        | none =>
            match delete_user_credentials st user_id with
            | .ok (_, st') => .ok (none, st')
            | .error e => .error e
      else .ok (some cred, st)

/-- C3 counterexample: `delete_user_credentials` on a corrupted token file
raises (`json.load` at source lines 114–115 runs with no
`JSONDecodeError` handler), so not every store operation tolerates
corrupted storage. -/
theorem store_corruption_counterexample :
    delete_user_credentials (some .corrupt) "7" = .error () := rfl

/-- C3 (amended): `save` and `load` tolerate a corrupted token file —
they treat the store as empty and complete without raising — but `delete`
raises on corrupted content. -/
theorem store_corruption_amended (u : String) (c : StoredCreds)
    (env : AuthEnv) :
    save_user_credentials (some .corrupt) u c = some (.valid [(u, c)]) ∧
    load_user_credentials env (some .corrupt) u = .ok (none, some .corrupt) ∧
    delete_user_credentials (some .corrupt) u = .error () := by
  refine ⟨?_, rfl, rfl⟩
  rfl

/-- C7: for a stored record that the library reports expired and that has
a refresh token — if the refresh succeeds, `load` returns the refreshed
record and persists it; if the refresh fails, `load` deletes the stored
record and returns absent, after which the store holds nothing for the
user and a further `load` also returns absent. -/
theorem load_refresh_behavior (env : AuthEnv)
    (m : List (String × StoredCreds)) (u : String) (cred : StoredCreds)
    (hlook : m.lookup u = some cred)
    (hexp : env.expired cred = true)
    (href : cred.refresh_token.isSome = true) :
    (∀ cred', env.refreshOutcome cred = some cred' →
        load_user_credentials env (some (.valid m)) u =
          .ok (some cred', some (.valid (mapSet m u cred')))) ∧
    (env.refreshOutcome cred = none →
        load_user_credentials env (some (.valid m)) u =
          .ok (none, some (.valid (eraseKey m u))) ∧
        (eraseKey m u).lookup u = none ∧
        load_user_credentials env (some (.valid (eraseKey m u))) u =
          .ok (none, some (.valid (eraseKey m u)))) := by
  have hcond : (env.expired cred && cred.refresh_token.isSome) = true := by
    simp [hexp, href]
  constructor
  · intro cred' hr
    simp [load_user_credentials, hlook, hcond, hr, save_user_credentials]
  · intro hr
    refine ⟨?_, lookup_eraseKey m u, ?_⟩
    · simp [load_user_credentials, hlook, hcond, hr, delete_user_credentials]
    · simp [load_user_credentials, lookup_eraseKey]

/-- A library environment in which every record is reported expired and
every refresh attempt fails. -/
def failEnv : AuthEnv := ⟨fun _ => true, fun _ => none⟩

/-- A concrete stored record carrying a refresh token. -/
def cred7 : StoredCreds := ⟨"tok", some "r", "uri", "cid", "sec", ["s"]⟩

/-- A concrete token map holding `cred7` for user `7`. -/
def store7 : List (String × StoredCreds) := [("7", cred7)]

/-- C7 witness: a concrete expired record with a refresh token whose
refresh fails is deleted and subsequently reported absent. -/
theorem load_refresh_behavior_witness :
    (∀ cred', failEnv.refreshOutcome cred7 = some cred' →
        load_user_credentials failEnv (some (.valid store7)) "7" =
          .ok (some cred', some (.valid (mapSet store7 "7" cred')))) ∧
    (failEnv.refreshOutcome cred7 = none →
        load_user_credentials failEnv (some (.valid store7)) "7" =
          .ok (none, some (.valid (eraseKey store7 "7"))) ∧
        (eraseKey store7 "7").lookup "7" = none ∧
        load_user_credentials failEnv (some (.valid (eraseKey store7 "7"))) "7" =
          .ok (none, some (.valid (eraseKey store7 "7")))) :=
  load_refresh_behavior failEnv store7 "7" cred7 (by decide) rfl rfl

/-! ## Session orchestrator model (`main.py`) -/

/-- The orchestrator's in-flight jobs: the (user id, chat id) pairs whose
`handle_message` invocation is inside the `async with` block.  The lock
dictionary of `main.py` line 13 is keyed by CHAT id. -/
structure BotState where
  active : List (Nat × Nat)
deriving Repr, DecidableEq

/-- `user_processing_locks[chat_id].locked()` (main.py line 96). -/
def chatLocked (st : BotState) (chat_id : Nat) : Bool :=
  st.active.any (fun j => j.2 == chat_id)

/-- Outcome of submitting a link. -/
inductive SubmitOutcome where
  | busyReply
  | jobStarted
deriving Repr, DecidableEq

/-- The guard of `handle_message` lines 92–100: a locked chat is answered
"busy" and no job starts (the handler returns before any enumeration);
otherwise the chat lock is taken and a job begins.  asyncio runs the
`locked()` test and the acquisition with no intervening await, so the
test-and-set is atomic. -/
def submitLink (st : BotState) (user_id chat_id : Nat) :
    SubmitOutcome × BotState :=
  if chatLocked st chat_id then (.busyReply, st)
  else (.jobStarted, ⟨(user_id, chat_id) :: st.active⟩)

/-- Job completion: the `async with` block exits (main.py line 267) and
the chat's lock is released. -/
def finishJob (st : BotState) (chat_id : Nat) : BotState :=
  ⟨st.active.filter (fun j => !(j.2 == chat_id))⟩

/-- Number of in-flight jobs belonging to one user. -/
def activeJobsOfUser (st : BotState) (user_id : Nat) : Nat :=
  (st.active.filter (fun j => j.1 == user_id)).length

theorem any_filter_not (l : List (Nat × Nat)) (c : Nat) :
    (l.filter (fun j => !(j.2 == c))).any (fun j => j.2 == c) = false := by
  induction l with
  | nil => rfl
  | cons e t ih =>
      by_cases h : (e.2 == c) = true <;> simp [List.filter, h, ih]

/-- C4 counterexample: the per-job exclusivity is keyed by chat, not by
user — the same user submitting from a second chat while their first job
is still processing is NOT answered busy: a second job starts and the user
has two active jobs. -/
theorem per_user_serialization_counterexample :
    (submitLink (submitLink ⟨[]⟩ 7 1).2 7 2).1 = .jobStarted ∧
    activeJobsOfUser (submitLink (submitLink ⟨[]⟩ 7 1).2 7 2).2 7 = 2 := by
  decide

/-- C4 (amended): serialization is per CHAT — a link submitted in a chat
whose previous job is still processing is answered busy and starts no new
job (state unchanged), a link in an unlocked chat starts a job, and once a
chat's job completes a new link in that chat is accepted and starts a new
job. -/
theorem per_chat_serialization (st : BotState) (u u' c : Nat) :
    (chatLocked st c = true → submitLink st u c = (.busyReply, st)) ∧
    (chatLocked st c = false →
        submitLink st u c = (.jobStarted, ⟨(u, c) :: st.active⟩)) ∧
    (submitLink (finishJob st c) u' c).1 = .jobStarted := by
  refine ⟨fun h => by simp [submitLink, h], fun h => by simp [submitLink, h], ?_⟩
  have hfree : chatLocked (finishJob st c) c = false := by
    simp [chatLocked, finishJob, any_filter_not]
  simp [submitLink, hfree]

/-- C4 witness: the per-chat behaviour at a concrete state — chat 1 busy
while its job runs, accepted again after completion. -/
theorem per_chat_serialization_witness :
    (chatLocked ⟨[(7, 1)]⟩ 1 = true →
        submitLink ⟨[(7, 1)]⟩ 7 1 = (.busyReply, ⟨[(7, 1)]⟩)) ∧
    (chatLocked ⟨[(7, 1)]⟩ 1 = false →
        submitLink ⟨[(7, 1)]⟩ 7 1 = (.jobStarted, ⟨[(7, 1), (7, 1)]⟩)) ∧
    (submitLink (finishJob ⟨[(7, 1)]⟩ 1) 7 1).1 = .jobStarted :=
  per_chat_serialization ⟨[(7, 1)]⟩ 7 7 1

/-- Substring test used for the Google-Workspace check of main.py line 198
(`"google-apps" in file_info['mimeType']`). -/
def strContains (hay needle : String) : Bool :=
  hay.data.tails.any (fun t => needle.data.isPrefixOf t)

/-- Outcome of the `download_gdrive_file` call for one file, as observed
by `handle_message`: a returned path, or one of the two error classes it
raises (caught at main.py lines 250 and 254). -/
inductive DlStage where
  | ok
  | connectionRaised
  | fsRaised
deriving Repr, DecidableEq

/-- Per-file notification classes sent by the loop of `handle_message`. -/
inductive FileNotif where
  | loginRequired
  | gdriveConnError
  | fsError
  | unexpectedError
deriving Repr, DecidableEq

/-- What processing one file did: which transfer-engine calls were made,
the terminal per-file notification, whether the Google-Workspace note was
shown, and the increments applied to the two job counters. -/
structure StepResult where
  downloadCalled : Bool
  uploadCalled : Bool
  notif : Option FileNotif
  gdocNote : Bool
  succInc : Nat
  failInc : Nat
deriving Repr, DecidableEq

/-- One iteration of the file loop of `handle_message` (main.py lines
155–263).  The size gate of lines 188–195 runs first: an over-threshold
file with no credentials is reported login-required, counted failed, and
neither transfer-engine function is called.  Otherwise the download runs.
IMPORTANT: `main.py` never imports `os`, yet line 211 evaluates
`os.path.exists(downloaded_file_path)` whenever `download_gdrive_file`
returned a path (the preceding `not downloaded_file_path` is False because
the returned path string is non-empty, so the `or` does not
short-circuit).  That raises `NameError`, which the `except Exception`
handler at line 258 catches: the file is reported as an unexpected error
and counted failed, and the upload stage of lines 228–248 is never
reached. -/
def processOneFile (threshold : Nat) (hasCreds : Bool) (f : Item)
    (dl : DlStage) : StepResult :=
  if f.size > threshold && !hasCreds then
    { downloadCalled := false, uploadCalled := false,
      notif := some .loginRequired, gdocNote := false,
      succInc := 0, failInc := 1 }
  else
    -- the Google-Workspace informational note of lines 198–203
    let g := strContains f.mimeType "google-apps" && f.size == 0
    match dl with
    | .connectionRaised =>
        { downloadCalled := true, uploadCalled := false,
          notif := some .gdriveConnError, gdocNote := g,
          succInc := 0, failInc := 1 }
    | .fsRaised =>
        { downloadCalled := true, uploadCalled := false,
          notif := some .fsError, gdocNote := g,
          succInc := 0, failInc := 1 }
    | .ok =>
        { downloadCalled := true, uploadCalled := false,
          notif := some .unexpectedError, gdocNote := g,
          succInc := 0, failInc := 1 }

/-- The two job counters accumulated over the file loop
(`successful_uploads`, `failed_uploads`, main.py lines 152–153). -/
def jobLoop (threshold : Nat) (hasCreds : Bool) (dl : Item → DlStage) :
    List Item → Nat × Nat
  | [] => (0, 0)
  | f :: rest =>
      ((processOneFile threshold hasCreds f (dl f)).succInc +
          (jobLoop threshold hasCreds dl rest).1,
        (processOneFile threshold hasCreds f (dl f)).failInc +
          (jobLoop threshold hasCreds dl rest).2)

/-- Job-level messages of `handle_message` after enumeration. -/
inductive JobReply where
  | noFiles
  | foundFiles (n : Nat)
  | summary (succeeded failed : Nat)
deriving Repr, DecidableEq

/-- The post-enumeration tail of `handle_message` (main.py lines 146–266):
an empty enumeration is reported and no loop runs; otherwise the files are
processed sequentially and the final summary carrying both counters is
sent unconditionally after the loop. -/
def runJob (threshold : Nat) (hasCreds : Bool) (dl : Item → DlStage)
    (files : List Item) : List JobReply :=
  if files = [] then [.noFiles]
  else
    [.foundFiles files.length,
     .summary (jobLoop threshold hasCreds dl files).1
       (jobLoop threshold hasCreds dl files).2]

theorem processOneFile_one_counter (threshold : Nat) (hasCreds : Bool)
    (f : Item) (dl : DlStage) :
    (processOneFile threshold hasCreds f dl).succInc +
      (processOneFile threshold hasCreds f dl).failInc = 1 := by
  rw [processOneFile.eq_def]
  split
  · rfl
  · cases dl <;> rfl

theorem jobLoop_counts (threshold : Nat) (hasCreds : Bool)
    (dl : Item → DlStage) (files : List Item) :
    (jobLoop threshold hasCreds dl files).1 +
      (jobLoop threshold hasCreds dl files).2 = files.length := by
  induction files with
  | nil => rfl
  | cons f rest ih =>
      have h := processOneFile_one_counter threshold hasCreds f (dl f)
      simp only [jobLoop, List.length_cons]
      omega

/-- C10: for every job with a non-empty file list the orchestrator emits a
summary holding both counters, and succeeded + failed equals the number of
enumerated files — each file increments exactly one of the two counters on
every path. -/
theorem job_summary_complete (threshold : Nat) (hasCreds : Bool)
    (dl : Item → DlStage) (files : List Item) (h : files ≠ []) :
    runJob threshold hasCreds dl files =
      [.foundFiles files.length,
       .summary (jobLoop threshold hasCreds dl files).1
         (jobLoop threshold hasCreds dl files).2] ∧
    (jobLoop threshold hasCreds dl files).1 +
      (jobLoop threshold hasCreds dl files).2 = files.length := by
  exact ⟨by simp [runJob, h], jobLoop_counts threshold hasCreds dl files⟩

/-- One concrete enumerated file used by the orchestrator witnesses. -/
def smallFile : Item :=
  { id := "id-s", name := "s.bin", mimeType := "application/octet-stream",
    size := 1024, path := "root/s.bin", is_folder := false }

/-- C10 witness: a concrete two-file job emits the summary and the
counters add up to 2. -/
theorem job_summary_complete_witness :
    runJob LARGE_FILE_THRESHOLD_BYTES true (fun _ => .ok)
        [smallFile, smallFile] =
      [.foundFiles 2,
       .summary
         (jobLoop LARGE_FILE_THRESHOLD_BYTES true (fun _ => .ok)
           [smallFile, smallFile]).1
         (jobLoop LARGE_FILE_THRESHOLD_BYTES true (fun _ => .ok)
           [smallFile, smallFile]).2] ∧
    (jobLoop LARGE_FILE_THRESHOLD_BYTES true (fun _ => .ok)
        [smallFile, smallFile]).1 +
      (jobLoop LARGE_FILE_THRESHOLD_BYTES true (fun _ => .ok)
        [smallFile, smallFile]).2 = 2 :=
  job_summary_complete LARGE_FILE_THRESHOLD_BYTES true (fun _ => .ok)
    [smallFile, smallFile] (by decide)

/-- C5: an over-threshold file with no credential available is skipped
entirely — neither `download_gdrive_file` nor `upload_to_telegram` is
called — the user is told to log in, and the file is counted failed. -/
theorem large_file_login_gate (threshold : Nat) (f : Item) (dl : DlStage)
    (h : f.size > threshold) :
    processOneFile threshold false f dl =
      { downloadCalled := false, uploadCalled := false,
        notif := some .loginRequired, gdocNote := false,
        succInc := 0, failInc := 1 } := by
  rw [processOneFile.eq_def, if_pos (by simp [h])]

/-- C5 witness: the spec scenario — threshold 50 MB, a 100 MB file, no
stored credential — is gated with a login-required report and no download
call. -/
theorem large_file_login_gate_witness :
    processOneFile LARGE_FILE_THRESHOLD_BYTES false
        { id := "id-big", name := "big.bin",
          mimeType := "application/octet-stream",
          size := 100 * 1024 * 1024, path := "root/big.bin",
          is_folder := false } .ok =
      { downloadCalled := false, uploadCalled := false,
        notif := some .loginRequired, gdocNote := false,
        succInc := 0, failInc := 1 } :=
  large_file_login_gate LARGE_FILE_THRESHOLD_BYTES
    { id := "id-big", name := "big.bin",
      mimeType := "application/octet-stream",
      size := 100 * 1024 * 1024, path := "root/big.bin",
      is_folder := false } .ok (by norm_num [LARGE_FILE_THRESHOLD_BYTES])

/-- C6: evaluation of the job step at a file exceeding the Telegram
maximum (credentials present, download succeeding).  The upload call is
indeed never made and the failure counter increments, but the user gets
the unexpected-error notification — the `NameError` arising because
`main.py` never imports `os` — instead of being informed which limit: the
upload stage, and with it the size-limit message of `file_manager.py`
line 83, is unreachable from the job loop. -/
theorem telegram_limit_report_unreachable :
    processOneFile LARGE_FILE_THRESHOLD_BYTES true
        { id := "id-huge", name := "huge.bin",
          mimeType := "application/octet-stream",
          size := 3000 * 1024 * 1024, path := "root/huge.bin",
          is_folder := false } .ok =
      { downloadCalled := true, uploadCalled := false,
        notif := some .unexpectedError, gdocNote := false,
        succInc := 0, failInc := 1 } := by
  decide

end GdTgBot
